import Mathlib

/-!
Shallow embedding of `app.py` (Geboorteplan chat backend): the per-session
workflow state, the tool functions the completion model can invoke, the
sentiment guardrail, the automatic quick-reply heuristic, the main agent
loop and the `/agent` route.  Machine behaviour that the claims do not
inspect (logging, SQLite persistence, static file serving) is elided; the
session state threaded through the functions below is exactly the JSON
state the code stores per session id.
-/

namespace App

/-- Workflow stages (`class Stage(str, Enum)`). -/
inductive Stage
  | THEME_SELECTION
  | TOPIC_SELECTION
  | QA_SESSION
  | COMPLETED
deriving DecidableEq

/-- An entry of `plan["themes"]`: `{"name": name, "is_custom": is_custom}`. -/
structure ThemeEntry where
  name : String
  is_custom : Bool
deriving DecidableEq

/-- An entry of `qa_queue` / the value of `current_question`:
`{"theme": ..., "topic": ..., "question": ...}`. -/
structure Question where
  theme : String
  topic : String
  question : String
deriving DecidableEq

/-- An entry of `plan["qa_items"]`: a question record plus `"answer"`. -/
structure QAItem where
  theme : String
  topic : String
  question : String
  answer : String
deriving DecidableEq

/-- `plan["topics"]` is a Python dict (insertion ordered, unique keys) from
theme name to topic-name list; modelled as an association list. -/
def dictGet (d : List (String × List String)) (k : String) : Option (List String) :=
  match d with
  | [] => none
  | kv :: rest => if kv.1 = k then some kv.2 else dictGet rest k

/-- Python `d.setdefault(k, [])`: inserts `(k, [])` at the end when `k` is absent. -/
def dictSetdefault (d : List (String × List String)) (k : String) :
    List (String × List String) :=
  match dictGet d k with
  | some _ => d
  | none => d ++ [(k, [])]

/-- Assignment `d[k] = v` for a key already present (in-place list mutation in
the source): replaces the value at `k`, keeping insertion order. -/
def dictSet (d : List (String × List String)) (k : String) (v : List String) :
    List (String × List String) :=
  d.map (fun kv => if kv.1 = k then (k, v) else kv)

/-- Python `d.pop(k, None)`: removes the entry for `k` when present. -/
def dictPop (d : List (String × List String)) (k : String) :
    List (String × List String) :=
  d.filter (fun kv => kv.1 != k)

/-- `st["plan"]`. -/
structure Plan where
  themes : List ThemeEntry
  topics : List (String × List String)
  qa_items : List QAItem
deriving DecidableEq

/-- `add_item` / `remove_item` discriminator `Literal['theme','topic']`. -/
inductive ItemType
  | theme
  | topic
deriving DecidableEq

/-- A tool call requested by the completion model.  Only the tools the
claims exercise are given typed argument forms; a name outside the
registry is `unknown` (`TOOL_MAP.get` returns `None` for it). -/
inductive ToolCall
  | add_item (item_type : ItemType) (name : String) (theme_context : Option String)
      (is_custom : Bool)
  | remove_item (item_type : ItemType) (name : String) (theme_context : Option String)
  | start_qa_session
  | get_next_question
  | log_answer (answer : String)
  | propose_quick_replies (replies : List String)
  | unknown (name : String)
deriving DecidableEq

/-- The `function.name` field of a tool call. -/
def toolName : ToolCall → String
  | ToolCall.add_item _ _ _ _ => "add_item"
  | ToolCall.remove_item _ _ _ => "remove_item"
  | ToolCall.start_qa_session => "start_qa_session"
  | ToolCall.get_next_question => "get_next_question"
  | ToolCall.log_answer _ => "log_answer"
  | ToolCall.propose_quick_replies _ => "propose_quick_replies"
  | ToolCall.unknown n => n

/-- One entry of `st["history"]` (role plus content / tool-call records).
`assistant` content is optional because the OpenAI message object and the
injected pseudo-message can lack it. -/
inductive Msg
  | system (content : String)
  | user (content : String)
  | assistant (content : Option String) (tool_calls : List ToolCall)
  | tool (name : String) (content : String)
deriving DecidableEq

/-- The complete per-session state stored under the session id. -/
structure SessionState where
  history : List Msg
  stage : Stage
  plan : Plan
  qa_queue : List Question
  current_question : Option Question
deriving DecidableEq

/-- The system prompt text placed in a fresh session's history (abridged:
its contents are never inspected by the code). -/
def SYSTEM_PROMPT : String := "# MAE - GEBOORTEPLAN ASSISTENT"

/-- `get_session` on a load miss: the fresh default state. -/
def fresh_session : SessionState :=
  { history := [Msg.system SYSTEM_PROMPT]
    stage := Stage.THEME_SELECTION
    plan := { themes := [], topics := [], qa_items := [] }
    qa_queue := []
    current_question := none }

/-- Python `str.isspace` characters relevant to `split` / `strip`. -/
def pyIsSpace (c : Char) : Bool :=
  c = ' ' || c = '\t' || c = '\n' || c = '\x0d' || c = '\x0b' || c = '\x0c'

/-- Helper for `pySplit`: accumulates the current word (reversed). -/
def pySplitAux : List Char → List Char → List String
  | [], [] => []
  | [], cur => [String.mk cur.reverse]
  | c :: rest, cur =>
    if pyIsSpace c then
      match cur with
      | [] => pySplitAux rest []
      | _ => String.mk cur.reverse :: pySplitAux rest []
    else pySplitAux rest (c :: cur)

/-- Python `str.split()` with no separator: splits on runs of whitespace,
discarding empty pieces. -/
def pySplit (s : String) : List String := pySplitAux s.data []

/-- Python `str.strip()`. -/
def pyStrip (s : String) : String :=
  String.mk (((s.data.dropWhile pyIsSpace).reverse.dropWhile pyIsSpace).reverse)

/-- Python `x or default` where `x` is an optional string (both `None` and
`""` are falsy). -/
def pyOrStr (x : Option String) (d : String) : String :=
  match x with
  | none => d
  | some s => if s = "" then d else s

/-- Python `str.lower()` (ASCII case mapping, which covers every string
the code lowers). -/
def pyLower (s : String) : String := String.mk (s.data.map Char.toLower)

/-- Python `s.endswith("?")`. -/
def endsWithQmark (s : String) : Bool :=
  s.data.getLast? == some ('?')

/-- Python `", ".join(xs)`. -/
def pyJoinComma : List String → String
  | [] => ""
  | [x] => x
  | x :: rest => x ++ ", " ++ pyJoinComma rest

/-- Substring test: does `needle` start `hay`? -/
def startsWithChars : List Char → List Char → Bool
  | [], _ => true
  | _ :: _, [] => false
  | a :: as, b :: bs => a = b && startsWithChars as bs

/-- Python `needle in hay` on strings, as a character-list scan. -/
def containsChars (hay needle : List Char) : Bool :=
  match hay with
  | [] => needle.isEmpty
  | _ :: rest => startsWithChars needle hay || containsChars rest needle

/-- `detect_sentiment`'s result `Literal["ok","needs_menu"]`. -/
inductive Sentiment
  | ok
  | needs_menu
deriving DecidableEq

/-- The vague phrases checked by `detect_sentiment`. -/
def vague_phrases : List String := ["weet niet", "geen idee", "idk"]

/-- `detect_sentiment` (lines 123-127): `needs_menu` when the text has
fewer than 4 whitespace-separated words or contains a vague phrase. -/
def detect_sentiment (text : String) : Sentiment :=
  if (pySplit text).length < 4 then Sentiment.needs_menu
  else if vague_phrases.any (fun v => containsChars (pyLower text).data v.data) then
    Sentiment.needs_menu
  else Sentiment.ok

/-- Tool `add_item` (lines 165-184).  Returns the updated state and the
string result; the source persists the state itself before returning. -/
def add_item (st : SessionState) (item_type : ItemType) (name : String)
    (theme_context : Option String) (is_custom : Bool) : SessionState × String :=
  match item_type with
  | ItemType.theme =>
    if 6 ≤ st.plan.themes.length then
      (st, "Error:max 6 thema's.")
    else if name ∈ st.plan.themes.map ThemeEntry.name then
      (st, "ok")
    else
      ({ st with
          plan := { st.plan with
            themes := st.plan.themes ++ [{ name := name, is_custom := is_custom }] }
          stage := Stage.TOPIC_SELECTION }, "ok")
  | ItemType.topic =>
    match theme_context with
    | none => (st, "ok")
    | some tc =>
      if tc = "" then (st, "ok")
      else
        let topics0 := dictSetdefault st.plan.topics tc
        let cur := (dictGet topics0 tc).getD []
        if cur.length < 4 ∧ name ∉ cur then
          ({ st with plan := { st.plan with topics := dictSet topics0 tc (cur ++ [name]) } },
           "ok")
        else
          ({ st with plan := { st.plan with topics := topics0 } }, "ok")

/-- Tool `remove_item` (lines 186-200). -/
def remove_item (st : SessionState) (item_type : ItemType) (name : String)
    (theme_context : Option String) : SessionState × String :=
  match item_type with
  | ItemType.theme =>
    ({ st with plan := { st.plan with
        themes := st.plan.themes.filter (fun t => t.name != name)
        topics := dictPop st.plan.topics name } }, "ok")
  | ItemType.topic =>
    match theme_context with
    | none => (st, "ok")
    | some tc =>
      if tc = "" then (st, "ok")
      else
        let cur := (dictGet st.plan.topics tc).getD []
        if name ∈ cur then
          ({ st with plan := { st.plan with
              topics := dictSet st.plan.topics tc (cur.erase name) } }, "ok")
        else (st, "ok")

/-- Tool `start_qa_session` (lines 223-237): unless the session is already
in the QA stage, rebuilds the queue with one question per topic of every
entry in `plan["topics"]` and enters QA_SESSION. -/
def start_qa_session (st : SessionState) : SessionState × String :=
  if st.stage = Stage.QA_SESSION then
    (st, "We zijn al in de vragenronde.")
  else
    ({ st with
        qa_queue := st.plan.topics.flatMap (fun kv => kv.2.map (fun t =>
          { theme := kv.1, topic := t,
            question := "Wat zijn je wensen rondom " ++ t ++ "?" }))
        stage := Stage.QA_SESSION }, "ok")

/-- Tool `get_next_question` (lines 239-253). -/
def get_next_question (st : SessionState) : SessionState × String :=
  match st.qa_queue with
  | [] =>
    ({ st with stage := Stage.COMPLETED }, "Alle vragen zijn beantwoord!")
  | q :: rest =>
    ({ st with qa_queue := rest, current_question := some q },
     "Vraag over '" ++ q.topic ++ "': " ++ q.question)

/-- Tool `log_answer` (lines 255-265): appends `{**cq, "answer": answer}`
to `qa_items` and clears `current_question`. -/
def log_answer (st : SessionState) (answer : String) : SessionState × String :=
  match st.current_question with
  | none => (st, "Error:Geen actieve vraag.")
  | some cq =>
    ({ st with
        plan := { st.plan with qa_items := st.plan.qa_items ++
          [{ theme := cq.theme, topic := cq.topic, question := cq.question,
             answer := answer }] }
        current_question := none },
     "Antwoord opgeslagen.")

/-- Tool `propose_quick_replies` (lines 362-368): state-free acknowledgment. -/
def propose_quick_replies (replies : List String) : String :=
  "Quick replies voorgesteld: " ++ pyJoinComma replies

/-- Tool `present_tool_choices` (lines 337-341): returns its argument.
Note its only declared parameter is `choices`. -/
def present_tool_choices (choices : String) : String := choices

/-- The declared parameter names of `present_tool_choices`
(`def present_tool_choices(choices: str)`; no `session_id`). -/
def present_tool_choices_params : List String := ["choices"]

/-- Dispatch of one tool call inside the agent loop
(`fn(session_id=sid, **args)`, with `TOOL_MAP.get` returning `None` for a
name outside the registry). -/
def execToolCall (st : SessionState) (c : ToolCall) : SessionState × String :=
  match c with
  | ToolCall.add_item it n tc ic => add_item st it n tc ic
  | ToolCall.remove_item it n tc => remove_item st it n tc
  | ToolCall.start_qa_session => start_qa_session st
  | ToolCall.get_next_question => get_next_question st
  | ToolCall.log_answer a => log_answer st a
  | ToolCall.propose_quick_replies rs => (st, propose_quick_replies rs)
  | ToolCall.unknown nm => (st, "Error: tool '" ++ nm ++ "' not found.")

/-- Sequential execution of a round's tool calls; produces the `"tool"`
role history records the loop appends. -/
def execToolCalls (st : SessionState) : List ToolCall → SessionState × List Msg
  | [] => (st, [])
  | c :: rest =>
    let r := execToolCall st c
    let rec2 := execToolCalls r.1 rest
    (rec2.1, Msg.tool (toolName c) r.2 :: rec2.2)

/-- Applying a sequence of tool calls to a state (ignoring result strings);
used to express reachability of session states through the tool registry. -/
def run_tools (st : SessionState) : List ToolCall → SessionState
  | [] => st
  | c :: cs => run_tools (execToolCall st c).1 cs

/-- Folding a sequence of `add_item(item_type='theme')` calls over a state
(the sequences claim C3 quantifies over). -/
def run_add_themes (st : SessionState) : List (String × Bool) → SessionState
  | [] => st
  | p :: rest => run_add_themes (add_item st ItemType.theme p.1 none p.2).1 rest

/-- A completion-service response: optional text plus requested tool calls
(`message.content`, `message.tool_calls or []`). -/
structure LLMMessage where
  content : Option String
  tool_calls : List ToolCall
deriving DecidableEq

/-- `SKIP_STAGES` of `_auto_quick_replies`. -/
def SKIP_STAGES : List Stage :=
  [Stage.THEME_SELECTION, Stage.TOPIC_SELECTION, Stage.COMPLETED]

/-- Python `str.capitalize()`: first character upper-cased, the rest
lower-cased. -/
def pyCapitalize (s : String) : String :=
  match s.data with
  | [] => ""
  | c :: rest => String.mk (c.toUpper :: rest.map Char.toLower)

/-- Matches the middle of the pattern `\s+of\s+` (case-insensitive `of`)
at the head of the character list, returning what follows. -/
def matchOfSep (cs : List Char) : Option (List Char) :=
  let rest1 := cs.dropWhile pyIsSpace
  if (cs.takeWhile pyIsSpace).isEmpty then none
  else
    match rest1 with
    | o :: f :: rest2 =>
      if o.toLower = 'o' ∧ f.toLower = 'f' then
        let rest3 := rest2.dropWhile pyIsSpace
        if (rest2.takeWhile pyIsSpace).isEmpty then none else some rest3
      else none
    | _ => none

/-- Scan for the leftmost split `g1 ++ sep ++ g2` of the body with `sep`
matching `\s+of\s+`, `g1` (the lazily matched first group) and `g2`
non-empty; mirrors `re.search(r"\b(.+?)\s+of\s+(.+?)\?$", ..., re.I)` on
the single-line replies the loop handles. -/
def findOfSplit : List Char → List Char → Option (List Char × List Char)
  | g1rev, c :: rest =>
    if g1rev.isEmpty then findOfSplit [c] rest
    else
      match matchOfSep (c :: rest) with
      | some g2 => if g2.isEmpty then findOfSplit (c :: g1rev) rest else some (g1rev.reverse, g2)
      | none => findOfSplit (c :: g1rev) rest
  | _, [] => none

/-- The two captured groups of `re.search(r"\b(.+?)\s+of\s+(.+?)\?$", s, re.I)`,
when the pattern matches. -/
def regexSearchOf (s : String) : Option (String × String) :=
  let cs := if s.data.getLast? = some ('\n') then s.data.dropLast else s.data
  if cs.getLast? = some ('?') then
    match findOfSplit [] cs.dropLast with
    | some g => some (String.mk g.1, String.mk g.2)
    | none => none
  else none

/-- `_auto_quick_replies` (lines 454-492): optionally builds the injected
pseudo-assistant message carrying a `propose_quick_replies` tool call.
(The source also invokes the `propose_quick_replies` tool for logging; that
call only returns a string.  The tool-call id, a fresh uuid, is omitted:
nothing reads it.) -/
def auto_quick_replies (st : SessionState) (assistant_msg : LLMMessage) : Option Msg :=
  if assistant_msg.tool_calls.any (fun tc => toolName tc == "propose_quick_replies")
      || SKIP_STAGES.contains st.stage
      || !(endsWithQmark (pyStrip (pyOrStr assistant_msg.content ""))) then
    none
  else
    let replies :=
      match regexSearchOf (pyOrStr assistant_msg.content "") with
      | some g => [pyCapitalize (pyStrip g.1), pyCapitalize (pyStrip g.2)]
      | none => ["Ja", "Nee"]
    some (Msg.assistant none [ToolCall.propose_quick_replies replies])

/-- A Python exception escaping the core (only the kinds the embedding
distinguishes). -/
inductive PyError
  | typeError (message : String)
  | attributeError (message : String)
deriving DecidableEq

/-- Python keyword-argument call semantics: a keyword argument whose name
is not a declared parameter of the callee raises `TypeError`. -/
def pyCheckKwargs (fname : String) (declared : List String) (kwargNames : List String) :
    Except PyError Unit :=
  match kwargNames.find? (fun k => !(declared.contains k)) with
  | some k =>
    Except.error (PyError.typeError
      (fname ++ "() got an unexpected keyword argument: " ++ k))
  | none => Except.ok ()

/-- The outcome of `run_main_agent_loop`: a reply (with the session state
as last persisted) or an uncaught exception. -/
inductive LoopResult
  | reply (st : SessionState) (text : String)
  | pyerror (st : SessionState) (e : PyError)
deriving DecidableEq

/-- The reply text of a loop outcome, when it produced one. -/
def loopResultText : LoopResult → Option String
  | LoopResult.reply _ t => some t
  | LoopResult.pyerror _ _ => none

/-- The session state carried by a loop outcome. -/
def loopResultState : LoopResult → SessionState
  | LoopResult.reply st _ => st
  | LoopResult.pyerror st _ => st

/-- The guardrail menu JSON (`json.dumps` of the `choices` dict). -/
def guardrail_menu : String :=
  "\x7b\"choices\": [\x7b\"label\": \"Meer info\", \"tool\": \"find_web_resources\", \"args\": \x7b\"topic\": \"pijnstilling\"\x7d\x7d, \x7b\"label\": \"Vergelijk opties\", \"tool\": \"vergelijk_opties\", \"args\": \x7b\"options\": [\"epiduraal\", \"badbevalling\"]\x7d\x7d, \x7b\"label\": \"Reflectie\", \"tool\": \"geef_denkvraag\", \"args\": \x7b\"theme\": \"pijnstilling\"\x7d\x7d]\x7d"

/-- `content` of a history entry, as Python's `msg["content"]` would yield
it (`none` for a `None` or absent content). -/
def msgContent : Msg → Option String
  | Msg.system c => some c
  | Msg.user c => some c
  | Msg.assistant c _ => c
  | Msg.tool _ c => some c

/-- `st["history"][-1]["content"]`. -/
def lastHistoryContent (st : SessionState) : Option String :=
  st.history.getLast?.bind msgContent

/-- One `for turn in range(5)` pass of `run_main_agent_loop`, driven by an
oracle giving the completion service's response for each round.  Returns
the final (persisted) state, the reply text, and the number of
completion-service requests made. -/
def agent_loop (oracle : Nat → LLMMessage) :
    SessionState → Nat → Nat → SessionState × String × Nat
  | st, _, 0 => (st, "(max turns bereikt)", 0)
  | st, turn, fuel + 1 =>
    let msg := oracle turn
    let ex := execToolCalls st msg.tool_calls
    let st2 : SessionState :=
      { ex.1 with history := st.history ++ [Msg.assistant msg.content msg.tool_calls] ++ ex.2 }
    let injected := auto_quick_replies st2 msg
    let st3 : SessionState :=
      match injected with
      | some m => { st2 with history := st2.history ++ [m] }
      | none => st2
    if injected.isSome
        || (!msg.tool_calls.isEmpty
            && msg.tool_calls.getLast?.map toolName == some "propose_quick_replies") then
      (st3, pyOrStr msg.content "(geen antwoord)", 1)
    else if msg.tool_calls.isEmpty then
      (st3, pyOrStr msg.content "(geen antwoord)", 1)
    else
      let r := agent_loop oracle st3 (turn + 1) fuel
      (r.1, r.2.1, r.2.2 + 1)

/-- `run_main_agent_loop` (lines 496-583): the sentiment guardrail followed
by at most five completion rounds.  The guardrail branch calls
`present_tool_choices(session_id=sid, choices=menu)`, checked against the
callee's declared parameters. -/
def run_main_agent_loop (st : SessionState) (oracle : Nat → LLMMessage) :
    LoopResult × Nat :=
  match lastHistoryContent st with
  | none =>
    (LoopResult.pyerror st (PyError.attributeError "content is missing or None"), 0)
  | some c =>
    if detect_sentiment c = Sentiment.needs_menu then
      match pyCheckKwargs "present_tool_choices" present_tool_choices_params
          ["session_id", "choices"] with
      | Except.error e => (LoopResult.pyerror st e, 0)
      | Except.ok _ => (LoopResult.reply st (present_tool_choices guardrail_menu), 0)
    else
      let r := agent_loop oracle st 0 5
      (LoopResult.reply r.1 r.2.1, r.2.2)

/-- The JSON payload `build_payload` assembles. -/
structure Payload where
  assistant_reply : String
  stage : Stage
  plan : Plan
  suggested_replies : List String
deriving DecidableEq

/-- First tool call named `propose_quick_replies` in a record, yielding
`args.get("replies", [])`. -/
def firstProposeReplies : List ToolCall → Option (List String)
  | [] => none
  | c :: rest =>
    if toolName c == "propose_quick_replies" then
      match c with
      | ToolCall.propose_quick_replies rs => some rs
      | _ => some []
    else firstProposeReplies rest

/-- `build_payload` (lines 587-620). -/
def build_payload (st : SessionState) (reply : String) : Payload :=
  let base : Payload :=
    { assistant_reply := reply, stage := st.stage, plan := st.plan,
      suggested_replies := [] }
  match st.history.getLast? with
  | some (Msg.assistant _ tcs) =>
    if tcs.isEmpty then base
    else
      match firstProposeReplies tcs with
      | some rs => { base with suggested_replies := rs }
      | none => base
  | _ => base

/-- The `/agent` route's observable outcome. -/
inductive RouteResponse
  | ok (payload : Payload)
  | emptyMessage
  | internalError (error : String)
deriving DecidableEq

/-- `agent_route` (lines 623-654): strips the message, loads or creates the
session, appends the user turn, runs the loop, and builds the payload; any
exception becomes the generic 500 error.  Returns the response, the
session state as persisted after the request, and the number of
completion-service requests (the `save_plan_summary` summarization call in
the COMPLETED stage counts as one). -/
def agent_route (body_message : String) (stored : Option SessionState)
    (oracle : Nat → LLMMessage) : RouteResponse × Option SessionState × Nat :=
  let msg := pyStrip body_message
  if msg = "" then (RouteResponse.emptyMessage, stored, 0)
  else
    let st0 := match stored with | some s => s | none => fresh_session
    let st1 : SessionState := { st0 with history := st0.history ++ [Msg.user msg] }
    match run_main_agent_loop st1 oracle with
    | (LoopResult.pyerror stE _, n) =>
      (RouteResponse.internalError "Er is een interne serverfout opgetreden.",
       some stE, n)
    | (LoopResult.reply stf reply, n) =>
      let extra := if stf.stage = Stage.COMPLETED then 1 else 0
      (RouteResponse.ok (build_payload stf reply), some stf, n + extra)

/-! ### Theorems -/

/-- Looking up a key in a dict that ends with a fresh binding of that key. -/
theorem dictGet_append_single (d : List (String × List String)) (k : String)
    (v : List String) (h : dictGet d k = none) : dictGet (d ++ [(k, v)]) k = some v := by
  induction d with
  | nil => simp [dictGet]
  | cons kv rest ih =>
    by_cases hk : kv.1 = k
    · simp [dictGet, hk] at h
    · simp only [List.cons_append, dictGet, if_neg hk] at h ⊢
      exact ih h

/-- After `setdefault k []` the key is present, bound to its previous value
or to `[]`. -/
theorem dictGet_dictSetdefault (d : List (String × List String)) (k : String) :
    dictGet (dictSetdefault d k) k = some ((dictGet d k).getD []) := by
  cases h : dictGet d k with
  | some v => simp [dictSetdefault, h]
  | none => simp [dictSetdefault, h, dictGet_append_single d k [] h]

/-- Assigning a present key makes lookup return the new value. -/
theorem dictGet_dictSet_self (d : List (String × List String)) (k : String)
    (v : List String) (h : dictGet d k ≠ none) : dictGet (dictSet d k v) k = some v := by
  induction d with
  | nil => simp [dictGet] at h
  | cons kv rest ih =>
    by_cases hk : kv.1 = k
    · simp [dictGet, dictSet, hk]
    · simp only [dictGet, if_neg hk] at h
      simp only [dictSet, List.map_cons, if_neg hk, dictGet, if_neg hk]
      exact ih h

/-- `pop` removes the key. -/
theorem dictGet_dictPop (d : List (String × List String)) (k : String) :
    dictGet (dictPop d k) k = none := by
  induction d with
  | nil => rfl
  | cons kv rest ih =>
    obtain ⟨k1, v1⟩ := kv
    by_cases hk : k1 = k
    · subst hk
      simpa [dictPop, List.filter_cons] using ih
    · have hb : (k1 != k) = true := by simpa using hk
      simpa [dictPop, List.filter_cons, hb, dictGet, if_neg hk] using ih

/-- Claim C1, counterexample: on the fresh default state — no themes at
all, so certainly no theme with a topic — `start_qa_session` still moves
the stage to QA_SESSION and answers `"ok"`, not the claimed
"incomplete: missing topics" error. -/
theorem C1_counterexample :
    fresh_session.plan.themes = [] ∧
    (start_qa_session fresh_session).1.stage = Stage.QA_SESSION ∧
    (start_qa_session fresh_session).2 = "ok" ∧
    (start_qa_session fresh_session).2 ≠ "incomplete: missing topics" :=
  ⟨rfl, rfl, rfl, by decide⟩

/-- Claim C1 (amended): `start_qa_session` transitions to QA_SESSION
whenever the stage is not already QA_SESSION — with no check on themes or
topics and no "incomplete" error — building `qa_queue` with exactly one
question per topic stored in `plan["topics"]`; when the stage is already
QA_SESSION it leaves the state unchanged and reports that the question
round is already running. -/
theorem C1_amended (st : SessionState) :
    (st.stage ≠ Stage.QA_SESSION →
      (start_qa_session st).1.stage = Stage.QA_SESSION ∧
      (start_qa_session st).2 = "ok" ∧
      (start_qa_session st).1.qa_queue.length
        = (st.plan.topics.map (fun kv => kv.2.length)).sum) ∧
    (st.stage = Stage.QA_SESSION →
      start_qa_session st = (st, "We zijn al in de vragenronde.")) := by
  constructor
  · intro h
    refine ⟨by simp [start_qa_session, if_neg h], by simp [start_qa_session, if_neg h], ?_⟩
    simp only [start_qa_session, if_neg h]
    simp [List.length_flatMap, Function.comp_def, List.length_map]
  · intro h
    simp [start_qa_session, h]

/-- Witness for C1: the amended theorem applied to the fresh state. -/
theorem C1_amended_witness :
    (start_qa_session fresh_session).1.stage = Stage.QA_SESSION ∧
    (start_qa_session fresh_session).2 = "ok" :=
  ⟨((C1_amended fresh_session).1 (by decide)).1,
   ((C1_amended fresh_session).1 (by decide)).2.1⟩

/-- Claim C2, counterexample: on the fresh state, whose `themes` list is
empty, `add_item(item_type='topic')` with an unknown `theme_context`
happily creates the topic bucket and appends the topic, answering `"ok"`
instead of the claimed "unknown theme" error. -/
theorem C2_counterexample :
    fresh_session.plan.themes = [] ∧
    (add_item fresh_session ItemType.topic "Kolven"
      (some "Voeding na de geboorte") false).2 = "ok" ∧
    (add_item fresh_session ItemType.topic "Kolven"
      (some "Voeding na de geboorte") false).1.plan.topics
      = [("Voeding na de geboorte", ["Kolven"])] :=
  ⟨rfl, rfl, rfl⟩

/-- Claim C2 (amended): `add_item(item_type='topic')` with a non-empty
`theme_context` never checks that the theme exists in `themes`: it always
answers `"ok"`, always leaves the `theme_context` key present in
`topics` (creating it if absent), and when no topics were stored yet under
that key it stores exactly the new topic. -/
theorem C2_amended (st : SessionState) (name tc : String) (h : tc ≠ "") :
    (add_item st ItemType.topic name (some tc) false).2 = "ok" ∧
    dictGet (add_item st ItemType.topic name (some tc) false).1.plan.topics tc ≠ none ∧
    ((dictGet st.plan.topics tc).getD [] = [] →
      dictGet (add_item st ItemType.topic name (some tc) false).1.plan.topics tc
        = some [name]) := by
  have hsd := dictGet_dictSetdefault st.plan.topics tc
  have hne : dictGet (dictSetdefault st.plan.topics tc) tc ≠ none := by simp [hsd]
  simp only [add_item, if_neg h]
  split_ifs with hcond
  · refine ⟨rfl, ?_, ?_⟩
    · rw [dictGet_dictSet_self _ _ _ hne]
      simp
    · intro hcur
      rw [hcur] at hsd
      simp only [hsd, Option.getD_some]
      rw [List.nil_append, dictGet_dictSet_self _ _ _ hne]
  · refine ⟨rfl, by simpa using hne, ?_⟩
    intro hcur
    exfalso
    apply hcond
    rw [hsd, hcur]
    simp

/-- Witness for C2: the amended theorem applied to the fresh state and a
theme that does not exist there. -/
theorem C2_amended_witness :
    (add_item fresh_session ItemType.topic "Kolven"
      (some "Voeding na de geboorte") false).2 = "ok" ∧
    dictGet (add_item fresh_session ItemType.topic "Kolven"
      (some "Voeding na de geboorte") false).1.plan.topics "Voeding na de geboorte"
      = some ["Kolven"] :=
  ⟨(C2_amended fresh_session "Kolven" "Voeding na de geboorte" (by decide)).1,
   (C2_amended fresh_session "Kolven" "Voeding na de geboorte" (by decide)).2.2 (by decide)⟩

/-- One `add_item(item_type='theme')` call preserves the theme-list bound
and name uniqueness. -/
theorem add_item_theme_preserves (st : SessionState) (n : String) (ic : Bool)
    (h1 : st.plan.themes.length ≤ 6)
    (h2 : (st.plan.themes.map ThemeEntry.name).Nodup) :
    (add_item st ItemType.theme n none ic).1.plan.themes.length ≤ 6 ∧
    ((add_item st ItemType.theme n none ic).1.plan.themes.map ThemeEntry.name).Nodup := by
  simp only [add_item]
  split_ifs with hlen hmem
  · exact ⟨h1, h2⟩
  · exact ⟨h1, h2⟩
  · constructor
    · simp only [List.length_append, List.length_cons, List.length_nil]
      omega
    · simp only [List.map_append, List.map_cons, List.map_nil]
      rw [List.nodup_append]
      refine ⟨h2, by simp, ?_⟩
      intro a ha hb
      simp only [List.mem_singleton] at hb
      subst hb
      exact hmem ha

/-- The theme-list bound and uniqueness are preserved along any sequence
of `add_item(item_type='theme')` calls. -/
theorem run_add_themes_inv (calls : List (String × Bool)) :
    ∀ st : SessionState, st.plan.themes.length ≤ 6 →
      (st.plan.themes.map ThemeEntry.name).Nodup →
      (run_add_themes st calls).plan.themes.length ≤ 6 ∧
      ((run_add_themes st calls).plan.themes.map ThemeEntry.name).Nodup := by
  induction calls with
  | nil => intro st h1 h2; exact ⟨h1, h2⟩
  | cons p rest ih =>
    intro st h1 h2
    have hstep := add_item_theme_preserves st p.1 p.2 h1 h2
    exact ih _ hstep.1 hstep.2

/-- Claim C3 (confirmed): along every sequence of
`add_item(item_type='theme')` calls from the fresh default state, `themes`
never exceeds 6 entries and never holds two entries with the same name;
and once 6 themes are present, a further call returns
"Error:max 6 thema's." and leaves the state unchanged. -/
theorem C3_confirmed (calls : List (String × Bool)) :
    (run_add_themes fresh_session calls).plan.themes.length ≤ 6 ∧
    ((run_add_themes fresh_session calls).plan.themes.map ThemeEntry.name).Nodup ∧
    ((run_add_themes fresh_session calls).plan.themes.length = 6 →
      ∀ n ic, add_item (run_add_themes fresh_session calls) ItemType.theme n none ic
        = (run_add_themes fresh_session calls, "Error:max 6 thema's.")) := by
  have hinv := run_add_themes_inv calls fresh_session (by decide) (by simp [fresh_session])
  refine ⟨hinv.1, hinv.2, ?_⟩
  intro h6 n ic
  simp [add_item, h6]

/-- Witness for C3: six themes added, the seventh call errors and the
theme count stays 6. -/
theorem C3_confirmed_witness :
    (run_add_themes fresh_session
      [("Ondersteuning", false), ("Bevalling & medisch beleid", false),
       ("Sfeer en omgeving", false), ("Voeding na de geboorte", false),
       ("Kraamtijd", false), ("Communicatie", false)]).plan.themes.length ≤ 6 ∧
    add_item (run_add_themes fresh_session
      [("Ondersteuning", false), ("Bevalling & medisch beleid", false),
       ("Sfeer en omgeving", false), ("Voeding na de geboorte", false),
       ("Kraamtijd", false), ("Communicatie", false)]) ItemType.theme "Speciale wensen" none false
      = (run_add_themes fresh_session
      [("Ondersteuning", false), ("Bevalling & medisch beleid", false),
       ("Sfeer en omgeving", false), ("Voeding na de geboorte", false),
       ("Kraamtijd", false), ("Communicatie", false)], "Error:max 6 thema's.") :=
  ⟨(C3_confirmed _).1, (C3_confirmed _).2.2 (by decide) "Speciale wensen" false⟩

/-- Claim C4, counterexample: removing an existing theme leaves its
`qa_items` entries in place, and removing a nonexistent theme still
answers `"ok"` rather than the claimed "not found" error. -/
theorem C4_counterexample :
    (remove_item
      { history := [], stage := Stage.QA_SESSION,
        plan := { themes := [{ name := "Ondersteuning", is_custom := false }],
                  topics := [("Ondersteuning", ["Rol van de partner"])],
                  qa_items := [{ theme := "Ondersteuning", topic := "Rol van de partner",
                                 question := "Wat zijn je wensen rondom Rol van de partner?",
                                 answer := "Partner blijft erbij" }] },
        qa_queue := [], current_question := none }
      ItemType.theme "Ondersteuning" none).1.plan.qa_items
      = [{ theme := "Ondersteuning", topic := "Rol van de partner",
           question := "Wat zijn je wensen rondom Rol van de partner?",
           answer := "Partner blijft erbij" }] ∧
    (remove_item fresh_session ItemType.theme "Onbekend thema" none).2 = "ok" ∧
    (remove_item fresh_session ItemType.theme "Onbekend thema" none).2 ≠ "not found" :=
  ⟨rfl, rfl, by decide⟩

/-- Claim C4 (amended): `remove_item(item_type='theme')` removes the named
theme from `themes` and its entry from `topics`, but leaves `qa_items`
untouched and always answers `"ok"`, even when the theme does not
exist. -/
theorem C4_amended (st : SessionState) (name : String) :
    (remove_item st ItemType.theme name none).2 = "ok" ∧
    (remove_item st ItemType.theme name none).1.plan.qa_items = st.plan.qa_items ∧
    (∀ t, t ∈ (remove_item st ItemType.theme name none).1.plan.themes → t.name ≠ name) ∧
    dictGet (remove_item st ItemType.theme name none).1.plan.topics name = none := by
  refine ⟨rfl, rfl, ?_, dictGet_dictPop st.plan.topics name⟩
  intro t ht
  simp only [remove_item, List.mem_filter] at ht
  simpa using ht.2

/-- Witness for C4: the amended theorem applied to a two-theme state. -/
theorem C4_amended_witness :
    (remove_item
      { history := [], stage := Stage.TOPIC_SELECTION,
        plan := { themes := [{ name := "Ondersteuning", is_custom := false },
                             { name := "Sfeer en omgeving", is_custom := false }],
                  topics := [("Ondersteuning", ["Rol van de partner"])],
                  qa_items := [] },
        qa_queue := [], current_question := none }
      ItemType.theme "Ondersteuning" none).2 = "ok" ∧
    ({ name := "Sfeer en omgeving", is_custom := false } : ThemeEntry).name ≠ "Ondersteuning" :=
  ⟨(C4_amended _ "Ondersteuning").1,
   (C4_amended
      { history := [], stage := Stage.TOPIC_SELECTION,
        plan := { themes := [{ name := "Ondersteuning", is_custom := false },
                             { name := "Sfeer en omgeving", is_custom := false }],
                  topics := [("Ondersteuning", ["Rol van de partner"])],
                  qa_items := [] },
        qa_queue := [], current_question := none } "Ondersteuning").2.2.1
      { name := "Sfeer en omgeving", is_custom := false } (by decide)⟩

/-- Claim C5, counterexample: with an active question, logging "eerste"
and then logging "tweede" leaves exactly one `qa_items` entry — but it
holds the FIRST answer, not the latest, because the second call finds
`current_question` cleared and errors out. -/
theorem C5_counterexample :
    (log_answer (log_answer
      { history := [], stage := Stage.QA_SESSION,
        plan := { themes := [], topics := [], qa_items := [] },
        qa_queue := [],
        current_question := some
          { theme := "Ondersteuning", topic := "Rol van de partner",
            question := "Wat zijn je wensen rondom Rol van de partner?" } }
      "eerste").1 "tweede").1.plan.qa_items
      = [{ theme := "Ondersteuning", topic := "Rol van de partner",
           question := "Wat zijn je wensen rondom Rol van de partner?",
           answer := "eerste" }] ∧
    (log_answer (log_answer
      { history := [], stage := Stage.QA_SESSION,
        plan := { themes := [], topics := [], qa_items := [] },
        qa_queue := [],
        current_question := some
          { theme := "Ondersteuning", topic := "Rol van de partner",
            question := "Wat zijn je wensen rondom Rol van de partner?" } }
      "eerste").1 "tweede").2 = "Error:Geen actieve vraag." ∧
    ("eerste" : String) ≠ "tweede" :=
  ⟨rfl, rfl, by decide⟩

/-- Claim C5 (amended): with `current_question` set, the first `log_answer`
appends one `qa_items` entry holding that answer and clears
`current_question`; a second `log_answer` returns the "no active question"
error and changes nothing, so when no entry for the (theme, question) pair
existed before, exactly one entry remains and it holds the FIRST of the
two answers. -/
theorem C5_amended (st : SessionState) (cq : Question) (a1 a2 : String)
    (h : st.current_question = some cq) :
    (log_answer st a1).2 = "Antwoord opgeslagen." ∧
    (log_answer st a1).1.plan.qa_items
      = st.plan.qa_items ++
        [{ theme := cq.theme, topic := cq.topic,
            question := cq.question, answer := a1 }] ∧
    (log_answer st a1).1.current_question = none ∧
    log_answer (log_answer st a1).1 a2 = ((log_answer st a1).1, "Error:Geen actieve vraag.") ∧
    ((st.plan.qa_items.filter
        (fun q => q.theme == cq.theme && q.question == cq.question)) = [] →
      ((log_answer (log_answer st a1).1 a2).1.plan.qa_items.filter
        (fun q => q.theme == cq.theme && q.question == cq.question))
        = [{ theme := cq.theme, topic := cq.topic,
             question := cq.question, answer := a1 }]) := by
  refine ⟨by simp [log_answer, h], by simp [log_answer, h], by simp [log_answer, h],
    by simp [log_answer, h], ?_⟩
  intro hnone
  simp [log_answer, h, List.filter_append, hnone]

/-- Witness for C5: the amended theorem applied to a state with an active
question and no previous answers. -/
theorem C5_amended_witness :
    (log_answer
      { history := [], stage := Stage.QA_SESSION,
        plan := { themes := [], topics := [], qa_items := [] },
        qa_queue := [],
        current_question := some
          { theme := "Ondersteuning", topic := "Rol van de partner",
            question := "Wat zijn je wensen rondom Rol van de partner?" } }
      "eerste").2 = "Antwoord opgeslagen." ∧
    ((log_answer (log_answer
      { history := [], stage := Stage.QA_SESSION,
        plan := { themes := [], topics := [], qa_items := [] },
        qa_queue := [],
        current_question := some
          { theme := "Ondersteuning", topic := "Rol van de partner",
            question := "Wat zijn je wensen rondom Rol van de partner?" } }
      "eerste").1 "tweede").1.plan.qa_items.filter
        (fun q => q.theme == "Ondersteuning"
          && q.question == "Wat zijn je wensen rondom Rol van de partner?"))
      = [{ theme := "Ondersteuning", topic := "Rol van de partner",
           question := "Wat zijn je wensen rondom Rol van de partner?",
           answer := "eerste" }] :=
by
  have h := C5_amended
    { history := [], stage := Stage.QA_SESSION,
      plan := { themes := [], topics := [], qa_items := [] },
      qa_queue := [],
      current_question := some
        { theme := "Ondersteuning", topic := "Rol van de partner",
          question := "Wat zijn je wensen rondom Rol van de partner?" } }
    { theme := "Ondersteuning", topic := "Rol van de partner",
      question := "Wat zijn je wensen rondom Rol van de partner?" }
    "eerste" "tweede" rfl
  exact ⟨h.1, h.2.2.2.2 rfl⟩

/-- Claim C6, counterexample: through the tool registry alone — add a
theme, add one topic, start the QA session, fetch the single question,
then call `get_next_question` once more on the empty queue — the stage
reaches COMPLETED while `current_question` is still set: a question is
still pending and never got an answer. -/
theorem C6_counterexample :
    (run_tools fresh_session
      [ToolCall.add_item ItemType.theme "Ondersteuning" none false,
       ToolCall.add_item ItemType.topic "Rol van de partner" (some "Ondersteuning") false,
       ToolCall.start_qa_session,
       ToolCall.get_next_question,
       ToolCall.get_next_question]).stage = Stage.COMPLETED ∧
    (run_tools fresh_session
      [ToolCall.add_item ItemType.theme "Ondersteuning" none false,
       ToolCall.add_item ItemType.topic "Rol van de partner" (some "Ondersteuning") false,
       ToolCall.start_qa_session,
       ToolCall.get_next_question,
       ToolCall.get_next_question]).current_question
      = some
        { theme := "Ondersteuning", topic := "Rol van de partner",
          question := "Wat zijn je wensen rondom Rol van de partner?" } :=
  ⟨rfl, rfl⟩

/-- Claim C6 (amended): across the modelled tool registry, the stage is
newly set to COMPLETED only by `get_next_question` called on an empty
`qa_queue`; no check of `current_question` is made, so COMPLETED can be
entered while a question is still pending. -/
theorem C6_amended (st : SessionState) :
    (∀ c, (execToolCall st c).1.stage = Stage.COMPLETED →
      st.stage = Stage.COMPLETED ∨
        (c = ToolCall.get_next_question ∧ st.qa_queue = [])) ∧
    (st.qa_queue = [] → (get_next_question st).1.stage = Stage.COMPLETED) := by
  constructor
  · intro c h
    cases c with
    | add_item it n tc ic =>
      left
      cases it with
      | theme =>
        simp only [execToolCall, add_item] at h
        split_ifs at h <;> simpa using h
      | topic =>
        cases tc with
        | none => simpa [execToolCall, add_item] using h
        | some s =>
          simp only [execToolCall, add_item] at h
          split_ifs at h <;> simpa using h
    | remove_item it n tc =>
      left
      cases it with
      | theme => simpa [execToolCall, remove_item] using h
      | topic =>
        cases tc with
        | none => simpa [execToolCall, remove_item] using h
        | some s =>
          simp only [execToolCall, remove_item] at h
          split_ifs at h <;> simpa using h
    | start_qa_session =>
      left
      simp only [execToolCall, start_qa_session] at h
      split_ifs at h
      simpa using h
    | get_next_question =>
      rcases hq : st.qa_queue with _ | ⟨q, rest⟩
      · exact Or.inr ⟨rfl, rfl⟩
      · left
        simp only [execToolCall, get_next_question, hq] at h
        simpa using h
    | log_answer a =>
      left
      cases hcq : st.current_question with
      | none => simpa [execToolCall, log_answer, hcq] using h
      | some cq => simpa [execToolCall, log_answer, hcq] using h
    | propose_quick_replies rs => exact Or.inl (by simpa [execToolCall] using h)
    | unknown nm => exact Or.inl (by simpa [execToolCall] using h)
  · intro hq
    simp [get_next_question, hq]

/-- Witness for C6: the amended theorem applied to the fresh state, whose
queue is empty, with a `get_next_question` call. -/
theorem C6_amended_witness :
    (fresh_session.stage = Stage.COMPLETED ∨
      (ToolCall.get_next_question = ToolCall.get_next_question ∧
        fresh_session.qa_queue = [])) ∧
    (get_next_question fresh_session).1.stage = Stage.COMPLETED :=
  ⟨(C6_amended fresh_session).1 ToolCall.get_next_question (by decide),
   (C6_amended fresh_session).2 rfl⟩

/-- When the reply text does not end with a question mark, no quick replies
are injected, whatever the session state. -/
theorem auto_quick_replies_none_of_no_qmark (msg : LLMMessage)
    (h : endsWithQmark (pyStrip (pyOrStr msg.content "")) = false) :
    ∀ st : SessionState, auto_quick_replies st msg = none := by
  intro st
  simp [auto_quick_replies, h]

/-- The agent loop makes at most `fuel` completion-service requests. -/
theorem agent_loop_calls_le (oracle : Nat → LLMMessage) :
    ∀ (fuel turn : Nat) (st : SessionState),
      (agent_loop oracle st turn fuel).2.2 ≤ fuel := by
  intro fuel
  induction fuel with
  | zero => intro turn st; exact Nat.le_refl 0
  | succ n ih =>
    intro turn st
    simp only [agent_loop]
    split
    · exact Nat.le_add_left 1 n
    · split
      · exact Nat.le_add_left 1 n
      · exact Nat.succ_le_succ (ih (turn + 1) _)

/-- Under an oracle whose every response carries tool calls, never ending
in a `propose_quick_replies` call, with reply text not ending in "?", the
loop exhausts its full budget and yields the fallback text. -/
theorem agent_loop_fallback (oracle : Nat → LLMMessage)
    (hgood : ∀ i, (oracle i).tool_calls ≠ [] ∧
      (oracle i).tool_calls.getLast?.map toolName ≠ some "propose_quick_replies" ∧
      endsWithQmark (pyStrip (pyOrStr (oracle i).content "")) = false) :
    ∀ (fuel turn : Nat) (st : SessionState),
      (agent_loop oracle st turn fuel).2.1 = "(max turns bereikt)" ∧
      (agent_loop oracle st turn fuel).2.2 = fuel := by
  intro fuel
  induction fuel with
  | zero => intro turn st; exact ⟨rfl, rfl⟩
  | succ n ih =>
    intro turn st
    obtain ⟨h1, h2, h3⟩ := hgood turn
    have hinj := auto_quick_replies_none_of_no_qmark (oracle turn) h3
    have hbeq : ((oracle turn).tool_calls.getLast?.map toolName
        == some "propose_quick_replies") = false := by
      simpa [beq_eq_false_iff_ne] using h2
    have hemp : (oracle turn).tool_calls.isEmpty = false := by
      simpa using h1
    simp only [agent_loop]
    simp only [hinj, hbeq, hemp, Option.isSome_none, Bool.false_or, Bool.and_false,
      Bool.not_false, Bool.false_eq_true, if_false]
    constructor
    · exact (ih (turn + 1) _).1
    · rw [(ih (turn + 1) _).2]

/-- Claim C7, counterexample: a round whose response carries a
`propose_quick_replies` tool call short-circuits the loop: the reply text
is returned after one round even though no round produced a plain-text
reply without tool calls, so the fallback is not returned. -/
theorem C7_counterexample :
    (run_main_agent_loop
      { fresh_session with
          history := fresh_session.history ++ [Msg.user "dit is een lang bericht"] }
      (fun _ => { content := some "Hoi",
                  tool_calls := [ToolCall.propose_quick_replies ["Ja", "Nee"]] })).2 = 1 ∧
    loopResultText (run_main_agent_loop
      { fresh_session with
          history := fresh_session.history ++ [Msg.user "dit is een lang bericht"] }
      (fun _ => { content := some "Hoi",
                  tool_calls := [ToolCall.propose_quick_replies ["Ja", "Nee"]] })).1
      = some "Hoi" ∧
    (some "Hoi" : Option String) ≠ some "(max turns bereikt)" ∧
    ([ToolCall.propose_quick_replies ["Ja", "Nee"]] : List ToolCall) ≠ [] :=
  ⟨by decide, by decide, by decide, by decide⟩

/-- Claim C7 (amended): the loop makes at most 5 completion-service
requests per user turn; and when every round's response carries tool calls
whose last call is not `propose_quick_replies` and whose text does not end
in a question mark (so neither quick-reply short-circuit fires), the loop
exhausts all 5 rounds and returns the fixed fallback "(max turns
bereikt)". -/
theorem C7_amended (st : SessionState) (oracle : Nat → LLMMessage) :
    (run_main_agent_loop st oracle).2 ≤ 5 ∧
    ((∀ i, (oracle i).tool_calls ≠ [] ∧
        (oracle i).tool_calls.getLast?.map toolName ≠ some "propose_quick_replies" ∧
        endsWithQmark (pyStrip (pyOrStr (oracle i).content "")) = false) →
      (∃ c, lastHistoryContent st = some c ∧ detect_sentiment c = Sentiment.ok) →
      loopResultText (run_main_agent_loop st oracle).1 = some "(max turns bereikt)" ∧
      (run_main_agent_loop st oracle).2 = 5) := by
  constructor
  · cases hl : lastHistoryContent st with
    | none => simp [run_main_agent_loop, hl]
    | some c =>
      by_cases hs : detect_sentiment c = Sentiment.needs_menu
      · simp only [run_main_agent_loop, hl, if_pos hs]
        cases pyCheckKwargs "present_tool_choices" present_tool_choices_params
            ["session_id", "choices"] with
        | error e => simp
        | ok u => simp
      · simp only [run_main_agent_loop, hl, if_neg hs]
        exact agent_loop_calls_le oracle 5 0 st
  · intro hgood hok
    obtain ⟨c, hc, hs⟩ := hok
    have hns : ¬ detect_sentiment c = Sentiment.needs_menu := by simp [hs]
    have hf := agent_loop_fallback oracle hgood 5 0 st
    simp only [run_main_agent_loop, hc, if_neg hns]
    exact ⟨by simp [loopResultText, hf.1], hf.2⟩

/-- Witness for C7: a turn whose oracle always answers with a plain tool
call and text ending in a period exhausts the budget. -/
theorem C7_amended_witness :
    loopResultText (run_main_agent_loop
      { fresh_session with
          history := fresh_session.history ++ [Msg.user "dit is een lang bericht"] }
      (fun _ => { content := some "Doorgaan.",
                  tool_calls := [ToolCall.get_next_question] })).1
      = some "(max turns bereikt)" ∧
    (run_main_agent_loop
      { fresh_session with
          history := fresh_session.history ++ [Msg.user "dit is een lang bericht"] }
      (fun _ => { content := some "Doorgaan.",
                  tool_calls := [ToolCall.get_next_question] })).2 = 5 :=
  (C7_amended
    { fresh_session with
        history := fresh_session.history ++ [Msg.user "dit is een lang bericht"] }
    (fun _ => { content := some "Doorgaan.",
                tool_calls := [ToolCall.get_next_question] })).2
    (fun _ => ⟨by decide, by decide, by decide⟩)
    ⟨"dit is een lang bericht", by decide, by decide⟩

/-- Claim C8 (confirmed): `_auto_quick_replies` suggests quick replies only
when the (stripped) reply text ends with a question mark — otherwise it
returns nothing, with no further work — and whenever it does produce a
suggestion, the suggestion is an injected `propose_quick_replies` call
carrying an ordered list of exactly 2 option labels (the two "A of B?"
alternatives, otherwise Ja/Nee). -/
theorem C8_confirmed (st : SessionState) (msg : LLMMessage) :
    (endsWithQmark (pyStrip (pyOrStr msg.content "")) = false →
      auto_quick_replies st msg = none) ∧
    (∀ m, auto_quick_replies st msg = some m →
      ∃ rs, m = Msg.assistant none [ToolCall.propose_quick_replies rs] ∧
        rs.length = 2) := by
  constructor
  · intro h
    exact auto_quick_replies_none_of_no_qmark msg h st
  · intro m hm
    by_cases hcond : (msg.tool_calls.any (fun tc => toolName tc == "propose_quick_replies")
        || SKIP_STAGES.contains st.stage
        || !(endsWithQmark (pyStrip (pyOrStr msg.content "")))) = true
    · rw [auto_quick_replies, if_pos hcond] at hm
      exact absurd hm (by simp)
    · rw [auto_quick_replies, if_neg hcond] at hm
      cases hre : regexSearchOf (pyOrStr msg.content "") with
      | none =>
        rw [hre] at hm
        refine ⟨["Ja", "Nee"], ?_, rfl⟩
        simpa using hm.symm
      | some g =>
        rw [hre] at hm
        refine ⟨[pyCapitalize (pyStrip g.1), pyCapitalize (pyStrip g.2)], ?_, rfl⟩
        simpa using hm.symm

/-- Witness for C8: a reply without a question mark yields no suggestion;
a yes/no question in the QA stage yields exactly two labels. -/
theorem C8_confirmed_witness :
    auto_quick_replies fresh_session { content := some "Prima.", tool_calls := [] } = none ∧
    (∃ rs, Msg.assistant none [ToolCall.propose_quick_replies ["Ja", "Nee"]]
        = Msg.assistant none [ToolCall.propose_quick_replies rs] ∧ rs.length = 2) :=
  ⟨(C8_confirmed fresh_session { content := some "Prima.", tool_calls := [] }).1 (by decide),
   (C8_confirmed { fresh_session with stage := Stage.QA_SESSION }
      { content := some "Wil je doorgaan?", tool_calls := [] }).2
      (Msg.assistant none [ToolCall.propose_quick_replies ["Ja", "Nee"]]) (by decide)⟩

/-- The agent loop never shortens the history. -/
theorem agent_loop_history_le (oracle : Nat → LLMMessage) :
    ∀ (fuel turn : Nat) (st : SessionState),
      st.history.length ≤ (agent_loop oracle st turn fuel).1.history.length := by
  intro fuel
  induction fuel with
  | zero => intro turn st; exact Nat.le_refl _
  | succ n ih =>
    intro turn st
    simp only [agent_loop]
    split
    · split
      · simp only [List.length_append]
        omega
      · simp only [List.length_append]
        omega
    · split
      · split
        · simp only [List.length_append]
          omega
        · simp only [List.length_append]
          omega
      · refine le_trans ?_ (ih (turn + 1) _)
        split
        · simp only [List.length_append]
          omega
        · simp only [List.length_append]
          omega

/-- `run_main_agent_loop` never shortens the history of the state it
reports. -/
theorem run_loop_history_le (st : SessionState) (oracle : Nat → LLMMessage) :
    st.history.length ≤
      (loopResultState (run_main_agent_loop st oracle).1).history.length := by
  cases hl : lastHistoryContent st with
  | none => simp [run_main_agent_loop, hl, loopResultState]
  | some c =>
    by_cases hs : detect_sentiment c = Sentiment.needs_menu
    · simp only [run_main_agent_loop, hl, if_pos hs]
      cases pyCheckKwargs "present_tool_choices" present_tool_choices_params
          ["session_id", "choices"] with
      | error e => simp [loopResultState]
      | ok u => simp [loopResultState]
    · simp only [run_main_agent_loop, hl, if_neg hs]
      exact agent_loop_history_le oracle 5 0 st

/-- Claim C9, counterexample: a session whose history already holds 41
turns — beyond the claimed compaction trigger of 40 — goes through a whole
turn without any compaction: the history afterwards holds 43 entries, not
at most 20. -/
theorem C9_counterexample :
    ((agent_route "dit zijn precies vijf woorden"
        (some
          { history := List.replicate 41 (Msg.user "bericht"),
            stage := Stage.THEME_SELECTION,
            plan := { themes := [], topics := [], qa_items := [] },
            qa_queue := [], current_question := none })
        (fun _ => { content := some "Prima, we gaan verder.",
                    tool_calls := [] })).2.1.map
      (fun s => s.history.length)) = some 43 ∧ 20 < 43 :=
  ⟨by decide, by decide⟩

/-- Claim C9 (amended): `agent_route` performs no history compaction at
all: whatever the stored history length (in particular above 40), the
persisted history after the turn is never truncated — it holds at least
the old history plus the new user message — and the state has no summary
field to accumulate into. -/
theorem C9_amended (body : String) (st0 : SessionState) (oracle : Nat → LLMMessage)
    (h : pyStrip body ≠ "") :
    st0.history.length + 1 ≤
      (((agent_route body (some st0) oracle).2.1).map
        (fun s => s.history.length)).getD 0 := by
  simp only [agent_route, if_neg h]
  have hlen := run_loop_history_le
    { st0 with history := st0.history ++ [Msg.user (pyStrip body)] } oracle
  rcases hr : run_main_agent_loop
      { st0 with history := st0.history ++ [Msg.user (pyStrip body)] } oracle
    with ⟨lr, n⟩
  rw [hr] at hlen
  cases lr with
  | pyerror stE e => simpa [loopResultState] using hlen
  | reply stf reply => simpa [loopResultState] using hlen

/-- Witness for C9: the amended theorem applied to a fresh session and a
plain five-word message. -/
theorem C9_amended_witness :
    fresh_session.history.length + 1 ≤
      (((agent_route "dit zijn precies vijf woorden" (some fresh_session)
          (fun _ => { content := some "Prima, we gaan verder.",
                      tool_calls := [] })).2.1).map
        (fun s => s.history.length)).getD 0 :=
  C9_amended "dit zijn precies vijf woorden" fresh_session
    (fun _ => { content := some "Prima, we gaan verder.", tool_calls := [] })
    (by decide)

/-- Claim C10 (confirmed): whenever the inbound message triggers the vague
guardrail (`detect_sentiment` says needs_menu: fewer than 4 words or a
vague phrase), the loop calls `present_tool_choices` with the undeclared
`session_id` keyword argument, raising TypeError before any
completion-service request; the route answers the generic 500 error and
the completion service is never called that turn. -/
theorem C10_confirmed (body : String) (stored : Option SessionState)
    (oracle : Nat → LLMMessage)
    (h1 : pyStrip body ≠ "")
    (h2 : detect_sentiment (pyStrip body) = Sentiment.needs_menu) :
    (∀ (st : SessionState) (c : String), lastHistoryContent st = some c →
      detect_sentiment c = Sentiment.needs_menu →
      run_main_agent_loop st oracle =
        (LoopResult.pyerror st (PyError.typeError
          "present_tool_choices() got an unexpected keyword argument: session_id"), 0)) ∧
    (agent_route body stored oracle).1 =
      RouteResponse.internalError "Er is een interne serverfout opgetreden." ∧
    (agent_route body stored oracle).2.2 = 0 := by
  have hloop : ∀ (st : SessionState) (c : String), lastHistoryContent st = some c →
      detect_sentiment c = Sentiment.needs_menu →
      run_main_agent_loop st oracle =
        (LoopResult.pyerror st (PyError.typeError
          "present_tool_choices() got an unexpected keyword argument: session_id"), 0) := by
    intro st c hc hs
    simp only [run_main_agent_loop, hc, if_pos hs]
    rfl
  refine ⟨hloop, ?_, ?_⟩
  · simp only [agent_route, if_neg h1]
    rw [hloop _ (pyStrip body) (by simp [lastHistoryContent, msgContent]) h2]
  · simp only [agent_route, if_neg h1]
    rw [hloop _ (pyStrip body) (by simp [lastHistoryContent, msgContent]) h2]

/-- Witness for C10: the one-word message "idk" ends the turn in the
generic 500 error with zero completion calls. -/
theorem C10_confirmed_witness :
    (agent_route "idk" none
      (fun _ => { content := some "x", tool_calls := [] })).1 =
      RouteResponse.internalError "Er is een interne serverfout opgetreden." ∧
    (agent_route "idk" none
      (fun _ => { content := some "x", tool_calls := [] })).2.2 = 0 :=
  ⟨(C10_confirmed "idk" none (fun _ => { content := some "x", tool_calls := [] })
      (by decide) (by decide)).2.1,
   (C10_confirmed "idk" none (fun _ => { content := some "x", tool_calls := [] })
      (by decide) (by decide)).2.2⟩

end App
